import Mathlib

/-!
Verification development for the media-organizer repository.

The repository's two subsystems with real design content are embedded
shallowly below:

* the event-segmentation pass of src/main.py (the script body following
  the sort of the scanned files, lines 157-218), together with the
  scanning loop `scan_all_media_files` (lines 84-130) and the in-memory
  memoized reverse lookup `approximate_reverse` (lines 22-29);
* the disk-backed reverse-geocoding cache `CachedGeolocator` of
  src/geocoders.py.

Python dictionaries with optional fields become structures of `Option`
fields; fallible dictionary indexing and the empty-input access
`files[0]` become `Except` values; the external geocoding provider
becomes an explicit oracle argument; timestamps are modelled at the
granularity the code uses them (calendar dates, via a day-number
function mirroring what date subtraction computes); latitude/longitude
floats are modelled as sign-magnitude pairs (the sign bit and the exact
rational magnitude of the double), so IEEE signed zero and Python's
banker's rounding are both explicit; the durable cache store is
modelled at the byte level, with UTF-8 validity explicit.  Strings are
treated at the character-list level (the data in the repository is
ASCII).
-/

namespace MediaOrg

/-! ### String helpers mirroring the Python string operations used -/

/-- Python `str.strip(c)` for a single strip character: remove leading
and trailing occurrences of `c`. -/
def stripChar (c : Char) (s : String) : String :=
  String.mk (((s.toList.dropWhile (fun x => x = c)).reverse.dropWhile
    (fun x => x = c)).reverse)

/-- ASCII model of Python `str.lower`. -/
def pyLowerChar (ch : Char) : Char := ch.toLower

/-- The composed transformation the script applies to every event name:
`event_name.lower().replace(" ", "-")` (src/main.py lines 179 and 212). -/
def lowerHyphen (s : String) : String :=
  String.mk ((s.toList.map pyLowerChar).map (fun ch => if ch = ' ' then '-' else ch))

/-- Python's `or` on two optional strings: `None` and the empty string
are falsy, so the left operand wins exactly when it is a non-empty
string; otherwise the right operand is returned as-is. -/
def pyOr (a b : Option String) : Option String :=
  match a with
  | some s => if s = "" then b else some s
  | none => b

/-- Two-digit zero padding, for ISO month and day fields. -/
def pad2 (n : Nat) : String :=
  if n < 10 then "0" ++ toString n else toString n

/-- Four-digit zero padding, for ISO year fields. -/
def pad4 (n : Nat) : String :=
  if n < 10 then "000" ++ toString n
  else if n < 100 then "00" ++ toString n
  else if n < 1000 then "0" ++ toString n
  else toString n

/-! ### Calendar dates

The script works with `datetime.date` values: it subtracts two dates to
obtain a whole number of days (`delta.days`, src/main.py line 191) and
renders dates with `date.isoformat()`.  We model a date as a
year/month/day triple, with the standard civil-calendar day number
giving date subtraction. -/

structure Date where
  year : Nat
  month : Nat
  day : Nat
deriving Repr, DecidableEq

/-- Day number of a Gregorian calendar date (days since 1970-01-01,
negative before).  Any correct day-numbering gives the same differences
as Python's date subtraction. -/
def Date.toOrdinal (dt : Date) : Int :=
  let y : Int := if dt.month ≤ 2 then (dt.year : Int) - 1 else (dt.year : Int)
  let era : Int := Int.fdiv y 400
  let yoe : Int := y - era * 400
  let mp : Int := if dt.month > 2 then (dt.month : Int) - 3 else (dt.month : Int) + 9
  let doy : Int := Int.fdiv (153 * mp + 2) 5 + (dt.day : Int) - 1
  let doe : Int := yoe * 365 + Int.fdiv yoe 4 - Int.fdiv yoe 100 + doy
  era * 146097 + doe - 719468

/-- `date.isoformat()`: zero-padded `YYYY-MM-DD`. -/
def Date.isoformat (dt : Date) : String :=
  pad4 dt.year ++ "-" ++ pad2 dt.month ++ "-" ++ pad2 dt.day

/-- `(current_date - last_date).days` of src/main.py line 191. -/
def gapDays (last cur : Date) : Int := cur.toOrdinal - last.toOrdinal

/-! ### The data model of the segmentation pass -/

/-- The `address` sub-dictionary of an `approximate_location`, with the
fields the script reads.  Absent dictionary keys are `none`. -/
structure Address where
  village : Option String
  town : Option String
  city : Option String
  municipality : Option String
  county : Option String
  postcode : Option String
deriving Repr, DecidableEq

/-- The fallback dictionary the script substitutes when a record's
`approximate_location` has no "address" key:
`dict(municipality="no_gps", county="", postcode="no_gps")`
(src/main.py lines 160-163 and 184-187). -/
def sentinelAddress : Address :=
  { village := none, town := none, city := none,
    municipality := some "no_gps", county := some "", postcode := some "no_gps" }

/-- One scanned file as the segmentation loop sees it: its creation
date (`created_at.date()`), the optional `address` part of its
approximate location, and its original file name (stem). -/
structure MediaRecord where
  date : Date
  address : Option Address
  originalFilename : String
deriving Repr, DecidableEq

/-- `props.approximate_location.get("address", sentinel)`. -/
def getAddress (r : MediaRecord) : Address :=
  r.address.getD sentinelAddress

/-- `address.get("postcode", "no_gps")` — the location key the loop
compares and carries forward (src/main.py lines 189 and 216). -/
def recLocation (r : MediaRecord) : String :=
  (getAddress r).postcode.getD "no_gps"

/-- An emitted event, exactly the data the script constructs when it
starts a new event: the `event_key` and the (lower-cased,
hyphenated) `event_name`. -/
structure Event where
  key : String
  name : String
deriving Repr, DecidableEq

/-- The exceptions the script body can raise while segmenting:
`files[0]` on an empty list (IndexError), `address["postcode"]` /
`address["county"]` on a dictionary missing the key (KeyError), and
`"__".join((None, ...))` when every name field is falsy (TypeError). -/
inductive SegError where
  | indexError : SegError
  | keyError : String → SegError
  | typeError : SegError
deriving Repr, DecidableEq

/-- The loop state: `last_date`, `last_location`, plus the observables
of the pass — the events emitted so far and, for each record processed
so far, the index of the event it was assigned to (a record is assigned
to the event that is current once its branch has run). -/
structure SegState where
  lastDate : Date
  lastLocation : String
  events : List Event
  assigns : List Nat
deriving Repr, DecidableEq

/-- First truthy of
`address.get("village") or address.get("city") or address.get("town")
or address.get("municipality")` (src/main.py lines 171-174 and 204-207;
note the source tries `city` before `town`). -/
def nameHead (a : Address) : Option String :=
  pyOr a.village (pyOr a.city (pyOr a.town a.municipality))

/-- The event-name construction
`"{date}__{name}".format(date=d.isoformat(), name="__".join((head, address["county"])).strip("_"))`
followed by `.lower().replace(" ", "-")` (src/main.py lines 167-179 and
200-212).  Python evaluates the tuple left to right, so a missing
`county` key raises KeyError before the join can raise TypeError on a
`None` head. -/
def mkEventName (d : Date) (a : Address) : Except SegError String :=
  match a.county with
  | none => Except.error (SegError.keyError "county")
  | some county =>
    match nameHead a with
    | none => Except.error SegError.typeError
    | some head =>
      Except.ok (lowerHyphen (d.isoformat ++ "__" ++ stripChar '_' (head ++ "__" ++ county)))

/-- Processing of `files[0]` (src/main.py lines 159-180): note the
first record indexes `address["postcode"]` directly, with no default. -/
def segmentInit (r : MediaRecord) : Except SegError SegState :=
  match (getAddress r).postcode with
  | none => Except.error (SegError.keyError "postcode")
  | some loc =>
    match mkEventName r.date (getAddress r) with
    | Except.error e => Except.error e
    | Except.ok nm =>
      Except.ok ⟨r.date, loc, [⟨r.date.isoformat ++ "__" ++ loc, nm⟩], [0]⟩

/-- One iteration of the loop over `files[1:]` (src/main.py lines
182-216).  The record continues the current event when the day gap is
at most 2, or at most 7 with an unchanged location key; otherwise a new
event is emitted, keyed by `last_date` (the previous record's date) and
the current record's location key.  `last_date` and `last_location` are
reassigned on every iteration, new event or not. -/
def segmentStep (st : SegState) (r : MediaRecord) : Except SegError SegState :=
  if gapDays st.lastDate r.date ≤ 2 then
    Except.ok ⟨r.date, recLocation r, st.events, st.assigns ++ [st.events.length - 1]⟩
  else if gapDays st.lastDate r.date ≤ 7 ∧ recLocation r = st.lastLocation then
    Except.ok ⟨r.date, recLocation r, st.events, st.assigns ++ [st.events.length - 1]⟩
  else
    match mkEventName st.lastDate (getAddress r) with
    | Except.error e => Except.error e
    | Except.ok nm =>
      Except.ok ⟨r.date, recLocation r,
        st.events ++ [⟨st.lastDate.isoformat ++ "__" ++ recLocation r, nm⟩],
        st.assigns ++ [st.events.length]⟩

/-- Folding the loop over the tail and reading off the observables. -/
def segmentRun (st0 : SegState) (rest : List MediaRecord) :
    Except SegError (List Event × List Nat) :=
  match List.foldlM segmentStep st0 rest with
  | Except.error e => Except.error e
  | Except.ok stF => Except.ok (stF.events, stF.assigns)

/-- The whole segmentation pass over the time-sorted record list
(src/main.py lines 157-216): initialize from `files[0]` — raising
IndexError when the list is empty — then run the loop over `files[1:]`.
Returns the emitted events and each record's event index. -/
def segment (files : List MediaRecord) : Except SegError (List Event × List Nat) :=
  match files with
  | [] => Except.error SegError.indexError
  | first :: rest =>
    match segmentInit first with
    | Except.error e => Except.error e
    | Except.ok st0 => segmentRun st0 rest

/-! ### The reverse-geocoding cache of src/geocoders.py

Coordinates are modelled as sign-magnitude pairs over exact rationals,
which represents IEEE signed zero; the provider (`RateLimiter` around
`Nominatim(...).reverse`, an external service) is an explicit oracle
from the rounded coordinates to an optional place payload, and the rate
limiting itself is a wall-clock concern with no effect on values.  A
place payload (`location.raw`, an opaque JSON-like dictionary) is
modelled as a string-keyed association list. -/

/-- The raw place payload stored in the cache (`location.raw`). -/
abbrev Place := List (String × String)

/-- Association-list lookup, the model of a Python dictionary read. -/
def assocLookup {κ α : Type} [DecidableEq κ] : List (κ × α) → κ → Option α
  | [], _ => none
  | (k', v) :: rest, k => if k' = k then some v else assocLookup rest k

/-- Round the fraction `n / d` (with `d > 0`) to the nearest integer
with ties to even — the rounding performed by both Python's
`round(x, 2)` and `f"{x:.2f}"`, expressed on an explicit fraction. -/
def roundHalfEven (n d : Int) : Int :=
  let f : Int := Int.fdiv n d
  let rem : Int := n - f * d
  if 2 * rem < d then f
  else if d < 2 * rem then f + 1
  else if f % 2 = 0 then f else f + 1

/-- A finite IEEE double as Python sees it: the sign bit and the exact
magnitude (every finite double is exactly a nonnegative rational times
the sign).  Keeping the sign separate from the magnitude represents
signed zero: `-0.001` has `neg = true`, and both `round(-0.001, 2)` and
`f"{-0.001:.2f}"` preserve that sign even though the magnitude rounds
to zero. -/
structure PyFloat where
  neg : Bool
  mag : ℚ
deriving Repr, DecidableEq

/-- The rounded magnitude of a coordinate at
`CachedGeolocator.precision = 2` decimal places, in hundredths:
round-half-even of `100 * mag`, computed on the canonical numerator and
denominator. -/
def magQuant (x : PyFloat) : Int :=
  roundHalfEven (100 * x.mag.num) (x.mag.den : Int)

/-- The numeric value of the rounded coordinate, in hundredths — the
equality `round(x1, 2) == round(x2, 2)` of Python floats is exactly
`quant2 x1 = quant2 x2`, since `-0.0 == 0.0` numerically. -/
def quant2 (x : PyFloat) : Int :=
  if x.neg then -(magQuant x) else magQuant x

/-- Render a nonnegative number of hundredths with two decimals. -/
def fmt2Mag (n : Int) : String :=
  toString (n.natAbs / 100) ++ "." ++ pad2 (n.natAbs % 100)

/-- `f"{x:.2f}"`: CPython prints the sign bit even when the magnitude
rounds to zero, so `f"{-0.001:.2f}"` is "-0.00" while
`f"{0.001:.2f}"` is "0.00". -/
def fmt2 (x : PyFloat) : String :=
  (if x.neg then "-" else "") ++ fmt2Mag (magQuant x)

/-- The cache key `f"{lat:.2f},{lon:.2f}"` of src/geocoders.py line 43. -/
def quantKey (lat lon : PyFloat) : String := fmt2 lat ++ "," ++ fmt2 lon

/-- The float `round(x, 2)` as it is handed to the provider: the
preserved sign bit together with the rounded magnitude in
hundredths. -/
def roundedF (x : PyFloat) : Bool × Int := (x.neg, magQuant x)

/-- The observable state of a `CachedGeolocator`: its in-memory cache
dictionary, the number of provider calls issued so far, and the number
of `_save` whole-file writes performed so far. -/
structure GeoCacheState where
  cache : List (String × Place)
  calls : Nat
  saves : Nat
deriving Repr, DecidableEq

/-- One byte of UTF-8 input against a decoder state
`(need, lo, hi)`: `need = 0` expects a lead byte (ASCII, or a 2-, 3- or
4-byte lead with the RFC 3629 bounds for its first continuation byte);
`need > 0` expects a continuation byte in `lo..hi`.  `none` is a
decoding error. -/
def utf8Next : Nat × Nat × Nat → Nat → Option (Nat × Nat × Nat)
  | (0, _, _), b =>
    if b ≤ 0x7F then some (0, 0, 0)
    else if 0xC2 ≤ b ∧ b ≤ 0xDF then some (1, 0x80, 0xBF)
    else if b = 0xE0 then some (2, 0xA0, 0xBF)
    else if b = 0xED then some (2, 0x80, 0x9F)
    else if 0xE1 ≤ b ∧ b ≤ 0xEF then some (2, 0x80, 0xBF)
    else if b = 0xF0 then some (3, 0x90, 0xBF)
    else if b = 0xF4 then some (3, 0x80, 0x8F)
    else if 0xF1 ≤ b ∧ b ≤ 0xF3 then some (3, 0x80, 0xBF)
    else none
  | (need + 1, lo, hi), b =>
    if lo ≤ b ∧ b ≤ hi then some (need, 0x80, 0xBF) else none

def utf8Scan : List Nat → Nat × Nat × Nat → Bool
  | [], st => st.1 == 0
  | b :: rest, st =>
    match utf8Next st b with
    | none => false
    | some st' => utf8Scan rest st'

/-- Whether a byte sequence is valid UTF-8 — in particular, a file
truncated in the middle of a multibyte character (trailing lead byte
with its continuation bytes cut off) is invalid. -/
def utf8Valid (bytes : List Nat) : Bool := utf8Scan bytes (0, 0, 0)

/-- The exception `_load` can raise: `open(..., encoding="utf-8")` plus
`file.read` inside `json.load` raises `UnicodeDecodeError` on a store
whose bytes are not valid UTF-8, and the `except json.JSONDecodeError`
handler does not catch it. -/
inductive LoadError where
  | unicodeDecodeError : LoadError
deriving Repr, DecidableEq

namespace CachedGeolocator

/-- `CachedGeolocator._load` (src/geocoders.py lines 26-36): `store` is
the durable file's raw bytes when the file exists.  Reading it as UTF-8
raises an uncaught `UnicodeDecodeError` when the bytes are invalid
(realistic for a truncated store, since `_save` writes with
`ensure_ascii=False`); otherwise `parse` is `json.load` on the decoded
text (given here the valid byte sequence, which determines the text),
returning `none` exactly when it raises `json.JSONDecodeError`, which
the method catches and turns into the empty dictionary. -/
def load (parse : List Nat → Option (List (String × Place)))
    (store : Option (List Nat)) : Except LoadError (List (String × Place)) :=
  match store with
  | none => Except.ok []
  | some bytes =>
    if utf8Valid bytes then Except.ok ((parse bytes).getD [])
    else Except.error LoadError.unicodeDecodeError

/-- `CachedGeolocator.reverse` (src/geocoders.py lines 42-57): derive
the key, return the cached payload on a hit; on a miss query the
provider with the rounded coordinates; an absent result is returned as
the empty dictionary and nothing is cached or saved, while a present
result is cached under the key and the cache is saved before it is
returned. -/
def reverse (provider : (Bool × Int) × (Bool × Int) → Option Place)
    (st : GeoCacheState) (lat lon : PyFloat) : Place × GeoCacheState :=
  match assocLookup st.cache (quantKey lat lon) with
  | some v => (v, st)
  | none =>
    match provider (roundedF lat, roundedF lon) with
    | none => ([], ⟨st.cache, st.calls + 1, st.saves⟩)
    | some raw => (raw, ⟨st.cache ++ [(quantKey lat lon, raw)], st.calls + 1, st.saves + 1⟩)

end CachedGeolocator

/-! ### The in-memory memoized lookup of src/main.py lines 22-29 -/

/-- The observable state of `_reverse_cached`'s `lru_cache`: the
memoization table keyed on the rounded coordinate pair — storing the
provider's result even when that result is `None` — and the number of
provider calls issued.  (Eviction starts only beyond
`maxsize=10_000` entries and is not reached by any trace considered
here, so it is elided.) -/
structure LruState where
  cache : List ((Int × Int) × Option Place)
  calls : Nat
deriving Repr, DecidableEq

/-- `approximate_reverse` (src/main.py lines 22-29): round both
coordinates to 2 decimals and call the `lru_cache`-memoized
`_reverse_cached`, which passes them to the rate-limited provider.
Whatever the provider returns — including `None` — is memoized.  The
memo table is a dictionary keyed on the rounded float pair, and float
dictionary keys compare numerically (`-0.0 == 0.0`), so the key is the
numeric value `quant2`; the provider still receives the rounded floats
with their sign bits. -/
def approximate_reverse (provider : (Bool × Int) × (Bool × Int) → Option Place)
    (st : LruState) (latitude longitude : PyFloat) : Option Place × LruState :=
  match assocLookup st.cache (quant2 latitude, quant2 longitude) with
  | some v => (v, st)
  | none =>
    let v := provider (roundedF latitude, roundedF longitude)
    (v, ⟨st.cache ++ [((quant2 latitude, quant2 longitude), v)], st.calls + 1⟩)

/-! ### The scanning loop of src/main.py lines 84-130

Only the traversal logic is in scope here: the per-entry body (the
`is_file` check, MIME sniffing, EXIF extraction and the `try/except`
that swallows per-file errors) performs I/O and is abstracted as a
function `process` returning `some` record when the entry contributes
one to the database and `none` otherwise. -/

/-- The `for src_filepath in source.rglob("*")` loop: the counter is
incremented for every directory entry before anything else, and the
loop breaks as soon as it exceeds 1440. -/
def scan_go {α β : Type} (process : α → Option β) :
    List α → Nat → List β → List β
  | [], _, db => db
  | e :: rest, counter, db =>
    if counter + 1 > 1440 then db
    else scan_go process rest (counter + 1) (db ++ (process e).toList)

/-- `scan_all_media_files`, starting from `counter = 0` and `db = []`. -/
def scan_all_media_files {α β : Type} (process : α → Option β)
    (entries : List α) : List β :=
  scan_go process entries 0 []

/-! ### Shared helper lemmas -/

theorem pyOr_some_of_ne (v : String) (b : Option String) (hne : v ≠ "") :
    pyOr (some v) b = some v := by
  show (if v = "" then b else some v) = some v
  rw [if_neg hne]

/-- An optional string is falsy for Python's `or` when it is `None` or
empty. -/
def falsy (o : Option String) : Prop := o = none ∨ o = some ""

theorem pyOr_falsy (a b : Option String) (h : falsy a) : pyOr a b = b := by
  cases h with
  | inl h => rw [h]; rfl
  | inr h => rw [h]; rfl

theorem assocLookup_append_self {κ α : Type} [DecidableEq κ]
    (l : List (κ × α)) (k : κ) (v : α) (h : assocLookup l k = none) :
    assocLookup (l ++ [(k, v)]) k = some v := by
  induction l with
  | nil => simp [assocLookup]
  | cons p rest ih =>
    obtain ⟨k', v'⟩ := p
    by_cases hk : k' = k
    · rw [assocLookup, if_pos hk] at h
      exact absurd h (by simp)
    · rw [assocLookup, if_neg hk] at h
      rw [List.cons_append, assocLookup, if_neg hk]
      exact ih h

theorem foldlM_except_cons {σ α ε : Type} (f : σ → α → Except ε σ)
    (st : σ) (a : α) (l : List α) :
    List.foldlM f st (a :: l) =
      (f st a).bind (fun st' => List.foldlM f st' l) := rfl

theorem segment_cons (first : MediaRecord) (rest : List MediaRecord)
    (st0 : SegState) (h : segmentInit first = Except.ok st0) :
    segment (first :: rest) = segmentRun st0 rest := by
  have hu : segment (first :: rest) =
      match segmentInit first with
      | Except.error e => Except.error e
      | Except.ok st0 => segmentRun st0 rest := rfl
  rw [hu, h]

theorem segmentRun_ok (st0 : SegState) (rest : List MediaRecord)
    (stF : SegState) (h : List.foldlM segmentStep st0 rest = Except.ok stF) :
    segmentRun st0 rest = Except.ok (stF.events, stF.assigns) := by
  unfold segmentRun
  rw [h]

/-- A record with no place description at all is processed by
`segmentInit` through the sentinel dictionary: the location key is the
sentinel postcode `"no_gps"` and the event name falls out of the
sentinel municipality and empty county. -/
theorem segmentInit_noAddress (r : MediaRecord) (h : r.address = none) :
    segmentInit r = Except.ok ⟨r.date, "no_gps",
      [⟨r.date.isoformat ++ "__" ++ "no_gps",
        lowerHyphen (r.date.isoformat ++ "__" ++ "no_gps")⟩], [0]⟩ := by
  have hga : getAddress r = sentinelAddress := by
    unfold getAddress
    rw [h]
    rfl
  unfold segmentInit
  rw [hga]
  rfl

/-- A record with no place description never makes `segmentStep` raise:
either branch succeeds, the new-event branch because the sentinel
dictionary carries a municipality and a county. -/
theorem segmentStep_noAddress (st : SegState) (r : MediaRecord)
    (h : r.address = none) : ∃ st', segmentStep st r = Except.ok st' := by
  have hga : getAddress r = sentinelAddress := by
    unfold getAddress
    rw [h]
    rfl
  unfold segmentStep
  by_cases h2 : gapDays st.lastDate r.date ≤ 2
  · rw [if_pos h2]
    exact ⟨_, rfl⟩
  · rw [if_neg h2]
    by_cases h7 : gapDays st.lastDate r.date ≤ 7 ∧ recLocation r = st.lastLocation
    · rw [if_pos h7]
      exact ⟨_, rfl⟩
    · rw [if_neg h7, hga]
      exact ⟨_, rfl⟩

theorem foldlM_segmentStep_noAddress (l : List MediaRecord)
    (hall : ∀ r, r ∈ l → r.address = none) :
    ∀ st : SegState, ∃ st', List.foldlM segmentStep st l = Except.ok st' := by
  induction l with
  | nil => exact fun st => ⟨st, rfl⟩
  | cons r rest ih =>
    intro st
    obtain ⟨st1, hst1⟩ := segmentStep_noAddress st r (hall r (List.mem_cons_self r rest))
    obtain ⟨st2, hst2⟩ := ih (fun x hx => hall x (List.mem_cons_of_mem r hx)) st1
    refine ⟨st2, ?_⟩
    rw [foldlM_except_cons, hst1]
    exact hst2

/-! ### Concrete data used by the claims' examples -/

/-- Location A of the segmentation example: county "Alba", postcode
"A1". -/
def addrA : Address := ⟨some "Avila", none, none, none, some "Alba", some "A1"⟩

/-- Location B of the segmentation example: county "Bihor", postcode
"B1". -/
def addrB : Address := ⟨some "Bistra", none, none, none, some "Bihor", some "B1"⟩

def c1r1 : MediaRecord := ⟨⟨2024, 1, 1⟩, some addrA, "f1"⟩

def c1r2 : MediaRecord := ⟨⟨2024, 1, 2⟩, some addrA, "f2"⟩

def c1r3 : MediaRecord := ⟨⟨2024, 1, 10⟩, some addrA, "f3"⟩

def c1r4 : MediaRecord := ⟨⟨2024, 1, 11⟩, some addrB, "f4"⟩

/-- The four records of the spec's segmentation example, time-sorted:
2024-01-01 at A, 2024-01-02 at A, 2024-01-10 at A, 2024-01-11 at B. -/
def c1Records : List MediaRecord := [c1r1, c1r2, c1r3, c1r4]

/-- What the pass actually emits on `c1Records`. -/
def c1Events : List Event :=
  [⟨"2024-01-01__A1", "2024-01-01__avila__alba"⟩,
   ⟨"2024-01-02__A1", "2024-01-02__avila__alba"⟩]

/-! ### Claim C1 -/

/-- Claim C1 (amended): for a subsequent record the segmenter starts a
new event iff the day gap exceeds 2 AND (the day gap exceeds 7 OR the
record's location key differs from the previous record's) — the code
implements the soft rule "a gap of at most 2 days always continues; a
gap of at most 7 days continues when the location is unchanged", not
"new iff gap at least 7 or location changed"; consequently the four
example records produce exactly 2 events, with records 1-2 in the
first and records 3-4 in the second. -/
theorem c1_boundary_rule :
    (∀ (st : SegState) (r : MediaRecord) (st' : SegState),
        segmentStep st r = Except.ok st' →
        (st'.events.length = st.events.length + 1 ↔
          ¬gapDays st.lastDate r.date ≤ 2 ∧
          ¬(gapDays st.lastDate r.date ≤ 7 ∧ recLocation r = st.lastLocation))) ∧
    segment c1Records = Except.ok (c1Events, [0, 0, 1, 1]) := by
  constructor
  · intro st r st' h
    unfold segmentStep at h
    by_cases h2 : gapDays st.lastDate r.date ≤ 2
    · rw [if_pos h2] at h
      injection h with h
      subst h
      exact iff_of_false (by simp) (fun hx => hx.1 h2)
    · rw [if_neg h2] at h
      by_cases h7 : gapDays st.lastDate r.date ≤ 7 ∧ recLocation r = st.lastLocation
      · rw [if_pos h7] at h
        injection h with h
        subst h
        exact iff_of_false (by simp) (fun hx => hx.2 h7)
      · rw [if_neg h7] at h
        cases hmk : mkEventName st.lastDate (getAddress r) with
        | error e =>
          rw [hmk] at h
          exact Except.noConfusion h
        | ok nm =>
          rw [hmk] at h
          injection h with h
          subst h
          exact iff_of_true (by simp) ⟨h2, h7⟩
  · rfl

/-- Claim C1, refuting the stated rule at the spec's own example: the
four records at (2024-01-01, A), (2024-01-02, A), (2024-01-10, A),
(2024-01-11, B) yield 2 events, not 3 — record 4 joins record 3's
event because its 1-day gap continues the event regardless of the
location change. -/
theorem c1_example_two_events :
    segment c1Records = Except.ok (c1Events, [0, 0, 1, 1]) ∧
    c1Events.length = 2 ∧ c1Events.length ≠ 3 :=
  ⟨rfl, rfl, by decide⟩

def c1WitSt : SegState :=
  ⟨⟨2024, 1, 2⟩, "A1", [⟨"2024-01-01__A1", "2024-01-01__avila__alba"⟩], [0, 0]⟩

def c1WitSt' : SegState :=
  ⟨⟨2024, 1, 10⟩, "A1",
   [⟨"2024-01-01__A1", "2024-01-01__avila__alba"⟩,
    ⟨"2024-01-02__A1", "2024-01-02__avila__alba"⟩], [0, 0, 1]⟩

/-- Witness for `c1_boundary_rule` at the 8-day gap of the example. -/
theorem c1_boundary_rule_witness :
    c1WitSt'.events.length = c1WitSt.events.length + 1 :=
  (c1_boundary_rule.1 c1WitSt c1r3 c1WitSt' rfl).mpr (by decide)

/-! ### Claim C2 -/

/-- Claim C2 (amended): when the segmenter starts a new event, the
emitted event key is the PREVIOUS record's ISO date joined with the
triggering record's location key — the date half is `last_date`, which
at that point still holds the preceding record's date, not the
triggering record's; only after emission do `last_date` and
`last_location` move to the triggering record (as they do on every
iteration, so comparisons are always against the previous record). -/
theorem c2_new_event_key (st : SegState) (r : MediaRecord) (nm : String)
    (hgap : ¬gapDays st.lastDate r.date ≤ 2)
    (hcont : ¬(gapDays st.lastDate r.date ≤ 7 ∧ recLocation r = st.lastLocation))
    (hnm : mkEventName st.lastDate (getAddress r) = Except.ok nm) :
    segmentStep st r = Except.ok ⟨r.date, recLocation r,
      st.events ++ [⟨st.lastDate.isoformat ++ "__" ++ recLocation r, nm⟩],
      st.assigns ++ [st.events.length]⟩ := by
  unfold segmentStep
  rw [if_neg hgap, if_neg hcont, hnm]

def c2r1 : MediaRecord :=
  ⟨⟨2024, 1, 1⟩, some ⟨some "VA", none, none, none, some "CA", some "AAA"⟩, "s1"⟩

def c2r2 : MediaRecord :=
  ⟨⟨2024, 1, 9⟩, some ⟨some "VB", none, none, none, some "CB", some "BBB"⟩, "s2"⟩

/-- Claim C2, refuted at a two-record input with an 8-day gap: the
second event's key is "2024-01-01__BBB" — previous record's date with
the triggering record's location — where the claim requires the
triggering record's own date, i.e. "2024-01-09__BBB". -/
theorem c2_event_key_uses_previous_date :
    segment [c2r1, c2r2] =
      Except.ok ([⟨"2024-01-01__AAA", "2024-01-01__va__ca"⟩,
                  ⟨"2024-01-01__BBB", "2024-01-01__vb__cb"⟩], [0, 1]) ∧
    "2024-01-01__BBB" ≠ "2024-01-09__BBB" :=
  ⟨rfl, by decide⟩

def c2WitSt : SegState :=
  ⟨⟨2024, 1, 1⟩, "AAA", [⟨"2024-01-01__AAA", "2024-01-01__va__ca"⟩], [0]⟩

/-- Witness for `c2_new_event_key`. -/
theorem c2_new_event_key_witness :
    segmentStep c2WitSt c2r2 = Except.ok ⟨⟨2024, 1, 9⟩, "BBB",
      [⟨"2024-01-01__AAA", "2024-01-01__va__ca"⟩,
       ⟨"2024-01-01__BBB", "2024-01-01__vb__cb"⟩], [0, 1]⟩ :=
  c2_new_event_key c2WitSt c2r2 "2024-01-01__vb__cb" (by decide) (by decide) rfl

/-! ### Claim C3 -/

/-- Claim C3 (amended): segmentation completes the pass without raising
for every non-empty input whose records carry NO place description at
all (the sentinel dictionary supplies postcode, county and municipality
for them); but a PARTIAL place description can abort the pass — hard
indexing of a missing `postcode` (first record) or `county` (new-event
naming), or a `None` join head, raises. -/
theorem c3_no_place_never_raises (files : List MediaRecord)
    (hne : files ≠ [])
    (hall : ∀ r, r ∈ files → r.address = none) :
    ∃ out, segment files = Except.ok out := by
  match files with
  | [] => exact absurd rfl hne
  | first :: rest =>
    have h1 := segmentInit_noAddress first (hall first (List.mem_cons_self first rest))
    obtain ⟨stF, hstF⟩ :=
      foldlM_segmentStep_noAddress rest
        (fun x hx => hall x (List.mem_cons_of_mem first hx))
        ⟨first.date, "no_gps",
         [⟨first.date.isoformat ++ "__" ++ "no_gps",
           lowerHyphen (first.date.isoformat ++ "__" ++ "no_gps")⟩], [0]⟩
    exact ⟨(stF.events, stF.assigns),
      by rw [segment_cons first rest _ h1, segmentRun_ok _ _ _ hstF]⟩

def c3PartialRec : MediaRecord :=
  ⟨⟨2024, 1, 1⟩, some ⟨some "X", none, none, none, some "C", none⟩, "p1"⟩

/-- Claim C3, refuted at a record whose place description is present
but lacks the postcode field: segmentation raises KeyError instead of
degrading to the sentinel location key. -/
theorem c3_partial_address_raises :
    segment [c3PartialRec] = Except.error (SegError.keyError "postcode") ∧
    c3PartialRec.address ≠ none :=
  ⟨rfl, by decide⟩

def c3NoGpsRec : MediaRecord := ⟨⟨2024, 2, 2⟩, none, "w1"⟩

/-- Witness for `c3_no_place_never_raises`. -/
theorem c3_no_place_never_raises_witness :
    ∃ out, segment [c3NoGpsRec] = Except.ok out :=
  c3_no_place_never_raises [c3NoGpsRec] (by decide) (by decide)

/-! ### Claim C9 -/

/-- Claim C9 (amended): on the empty input the segmentation pass raises
IndexError at the access of the first record — it is not a no-op. -/
theorem c9_empty_raises :
    segment ([] : List MediaRecord) = Except.error SegError.indexError := rfl

/-- Claim C9, refuted: on the empty input, segmentation does not
terminate normally with no events. -/
theorem c9_empty_not_ok :
    segment ([] : List MediaRecord) ≠ Except.ok ([], []) :=
  fun h => Except.noConfusion h

/-! ### Claim C7 -/

/-- Claim C7 (amended): a record with no place description gets the
sentinel location key "no_gps" — the sentinel postcode alone, with no
admin-code prefix, so not "RO__no_gps" — and the event name derived for
it is its ISO date joined with "no_gps" (lower-cased/hyphenated); the
record's original filename plays no part in naming.  Such records are
neither crashed on nor dropped. -/
theorem c7_sentinel_fallback (r : MediaRecord) (h : r.address = none) :
    recLocation r = "no_gps" ∧
    segmentInit r = Except.ok ⟨r.date, "no_gps",
      [⟨r.date.isoformat ++ "__" ++ "no_gps",
        lowerHyphen (r.date.isoformat ++ "__" ++ "no_gps")⟩], [0]⟩ ∧
    "no_gps" ≠ "RO__no_gps" := by
  refine ⟨?_, segmentInit_noAddress r h, by decide⟩
  unfold recLocation getAddress
  rw [h]
  rfl

def c7Rec : MediaRecord := ⟨⟨2024, 3, 5⟩, none, "IMG_1234"⟩

/-- Claim C7, refuted at a GPS-less record: its location key is
"no_gps", not "RO__no_gps", and the name attached to its event is
"2024-03-05__no_gps", not its original filename "IMG_1234". -/
theorem c7_sentinel_not_admin_pair :
    recLocation c7Rec = "no_gps" ∧
    "no_gps" ≠ "RO__no_gps" ∧
    segment [c7Rec] =
      Except.ok ([⟨"2024-03-05__no_gps", "2024-03-05__no_gps"⟩], [0]) ∧
    "2024-03-05__no_gps" ≠ "IMG_1234" :=
  ⟨rfl, by decide, rfl, by decide⟩

/-- Witness for `c7_sentinel_fallback`. -/
theorem c7_sentinel_fallback_witness : recLocation c7Rec = "no_gps" :=
  (c7_sentinel_fallback c7Rec rfl).1

/-! ### Claim C8 -/

/-- Claim C8 (amended): the event name's head is the first non-empty
field in the order village, CITY, town, municipality (the code tries
city before town); there is no filename fallback — when all four are
falsy the name construction raises (TypeError), and the county field is
always indexed, raising KeyError when absent rather than being optional.
The assembled "date__head__county" string is stripped of leading and
trailing UNDERSCORES (not whitespace), lower-cased, and has spaces
replaced by hyphens. -/
theorem c8_name_priority (d : Date) (a : Address) (c h : String)
    (hc : a.county = some c) (hh : nameHead a = some h) :
    mkEventName d a =
      Except.ok (lowerHyphen (d.isoformat ++ "__" ++ stripChar '_' (h ++ "__" ++ c))) ∧
    (∀ v, a.village = some v → v ≠ "" → h = v) ∧
    (falsy a.village → ∀ v, a.city = some v → v ≠ "" → h = v) ∧
    (falsy a.village → falsy a.city → ∀ v, a.town = some v → v ≠ "" → h = v) ∧
    (falsy a.village → falsy a.city → falsy a.town → a.municipality = some h) := by
  refine ⟨?_, ?_, ?_, ?_, ?_⟩
  · unfold mkEventName
    rw [hc, hh]
  · intro v hv hne
    unfold nameHead at hh
    rw [hv, pyOr_some_of_ne v _ hne] at hh
    injection hh with hh
    exact hh.symm
  · intro hv v hcity hne
    unfold nameHead at hh
    rw [pyOr_falsy _ _ hv, hcity, pyOr_some_of_ne v _ hne] at hh
    injection hh with hh
    exact hh.symm
  · intro hv hcity v htown hne
    unfold nameHead at hh
    rw [pyOr_falsy _ _ hv, pyOr_falsy _ _ hcity, htown, pyOr_some_of_ne v _ hne] at hh
    injection hh with hh
    exact hh.symm
  · intro hv hcity htown
    unfold nameHead at hh
    rw [pyOr_falsy _ _ hv, pyOr_falsy _ _ hcity, pyOr_falsy _ _ htown] at hh
    exact hh

def c8Addr : Address :=
  ⟨none, some "Alpha", some "Beta", some "Muni", some "Cty", some "P"⟩

/-- Claim C8, refuted at an address whose town is "Alpha" and whose
city is "Beta" (no village): the claimed priority order
village-town-city would name it after the town, "alpha", but the code
tries city before town and names it "beta". -/
theorem c8_city_beats_town :
    mkEventName ⟨2024, 1, 1⟩ c8Addr = Except.ok "2024-01-01__beta__cty" ∧
    "2024-01-01__beta__cty" ≠ "2024-01-01__alpha__cty" :=
  ⟨rfl, by decide⟩

/-- Witness for `c8_name_priority`. -/
theorem c8_name_priority_witness :
    mkEventName ⟨2024, 1, 1⟩ c8Addr =
      Except.ok (lowerHyphen (Date.isoformat ⟨2024, 1, 1⟩ ++ "__" ++
        stripChar '_' ("Beta" ++ "__" ++ "Cty"))) :=
  (c8_name_priority ⟨2024, 1, 1⟩ c8Addr "Cty" "Beta" rfl rfl).1

/-! ### Claim C4 -/

/-- Claim C4 (amended): in `CachedGeolocator.reverse`, a provider miss
(no result) returns the empty payload without raising, writes nothing
to the cache and performs no save, so a second call whose coordinates
quantize to the same key issues another provider call; however, the
OTHER reverse lookup of the repository, `approximate_reverse` of
src/main.py, memoizes the provider's `None` result in its in-process
LRU table, so there a failure IS permanently memoized for the process's
lifetime (see `c4_lru_memoizes_failure`). -/
theorem c4_cache_not_poisoned (provider : (Bool × Int) × (Bool × Int) → Option Place)
    (st : GeoCacheState) (lat lon : PyFloat)
    (hmiss : assocLookup st.cache (quantKey lat lon) = none)
    (hfail : provider (roundedF lat, roundedF lon) = none) :
    CachedGeolocator.reverse provider st lat lon
      = ([], ⟨st.cache, st.calls + 1, st.saves⟩) ∧
    CachedGeolocator.reverse provider ⟨st.cache, st.calls + 1, st.saves⟩ lat lon
      = ([], ⟨st.cache, st.calls + 1 + 1, st.saves⟩) := by
  refine ⟨?_, ?_⟩ <;> simp only [CachedGeolocator.reverse, hmiss, hfail]

/-- Claim C4, refuted on the cited `approximate_reverse` path: with a
provider that returns nothing, the first call memoizes the `None`
result, and a repeat call with the same coordinates is answered from
the LRU table — the call counter stays at 1 instead of reaching 2. -/
theorem c4_lru_memoizes_failure :
    (approximate_reverse (fun _ => (none : Option Place))
        ⟨[], 0⟩ ⟨false, mkRat 0 1⟩ ⟨false, mkRat 0 1⟩).2 = ⟨[((0, 0), none)], 1⟩ ∧
    (approximate_reverse (fun _ => (none : Option Place))
        ⟨[((0, 0), none)], 1⟩ ⟨false, mkRat 0 1⟩ ⟨false, mkRat 0 1⟩).2.calls = 1 ∧
    (1 : Nat) ≠ 2 :=
  ⟨by decide, by decide, by decide⟩

/-- Witness for `c4_cache_not_poisoned`. -/
theorem c4_cache_not_poisoned_witness :
    CachedGeolocator.reverse (fun _ => (none : Option Place)) ⟨[], 0, 0⟩
      ⟨false, mkRat 0 1⟩ ⟨false, mkRat 0 1⟩ = ([], ⟨[], 1, 0⟩) :=
  (c4_cache_not_poisoned (fun _ => none) ⟨[], 0, 0⟩
    ⟨false, mkRat 0 1⟩ ⟨false, mkRat 0 1⟩ rfl rfl).1

/-! ### Claim C5 -/

/-- Claim C5 (amended): an absent store yields the empty cache without
raising, and a store whose (UTF-8-valid) text fails JSON parsing raises
the caught `json.JSONDecodeError` and yields the empty cache; but a
store whose BYTES are not valid UTF-8 — e.g. one truncated in the
middle of a multibyte character, realistic because `_save` writes with
`ensure_ascii=False` — raises an uncaught `UnicodeDecodeError` instead
of degrading to the empty cache. -/
theorem c5_load_mixed (parse : List Nat → Option (List (String × Place)))
    (good ok bad : List Nat) (d : List (String × Place))
    (hgoodValid : utf8Valid good = true) (hgoodParse : parse good = none)
    (hokValid : utf8Valid ok = true) (hokParse : parse ok = some d)
    (hbadValid : utf8Valid bad = false) :
    CachedGeolocator.load parse none = Except.ok [] ∧
    CachedGeolocator.load parse (some good) = Except.ok [] ∧
    CachedGeolocator.load parse (some ok) = Except.ok d ∧
    CachedGeolocator.load parse (some bad)
      = Except.error LoadError.unicodeDecodeError := by
  refine ⟨rfl, ?_, ?_, ?_⟩
  · show (if utf8Valid good then Except.ok ((parse good).getD [])
      else Except.error LoadError.unicodeDecodeError) = Except.ok []
    rw [hgoodValid, if_pos rfl, hgoodParse]
    rfl
  · show (if utf8Valid ok then Except.ok ((parse ok).getD [])
      else Except.error LoadError.unicodeDecodeError) = Except.ok d
    rw [hokValid, if_pos rfl, hokParse]
    rfl
  · show (if utf8Valid bad then Except.ok ((parse bad).getD [])
      else Except.error LoadError.unicodeDecodeError)
      = Except.error LoadError.unicodeDecodeError
    rw [hbadValid, if_neg (by simp)]

/-- Claim C5, refuted at a store truncated in the middle of a
multibyte UTF-8 character: byte 34 is an opening quote and byte 200
(0xC8) is the lead byte of a two-byte character (e.g. "ș" is the pair
200, 153) whose continuation byte the truncation cut off.  This store
is truncated and unparsable, yet construction raises an uncaught
`UnicodeDecodeError` instead of yielding the empty cache. -/
theorem c5_truncated_multibyte_raises :
    utf8Valid [34, 200] = false ∧
    CachedGeolocator.load (fun _ => (none : Option (List (String × Place))))
      (some [34, 200]) = Except.error LoadError.unicodeDecodeError ∧
    CachedGeolocator.load (fun _ => (none : Option (List (String × Place))))
      (some [34, 200]) ≠ Except.ok [] :=
  ⟨rfl, rfl, fun h => Except.noConfusion h⟩

def c5Parse : List Nat → Option (List (String × Place)) :=
  fun s => if s = [123, 125] then some [] else none

/-- Witness for `c5_load_mixed`: bytes 34, 34 are the UTF-8-valid but
JSON-unparsable text of two quotes with nothing between... i.e. the
oracle rejects it; bytes 123, 125 are an empty JSON object; bytes
34, 200 are the truncated store. -/
theorem c5_load_mixed_witness :
    CachedGeolocator.load c5Parse (some [34, 200])
      = Except.error LoadError.unicodeDecodeError :=
  (c5_load_mixed c5Parse [34, 34] [123, 125] [34, 200] [] rfl rfl rfl rfl rfl).2.2.2

/-! ### Claim C6 -/

theorem magQuant_eq_of_quant2_eq (a b : PyFloat)
    (hq : quant2 a = quant2 b) (hn : a.neg = b.neg) :
    magQuant a = magQuant b := by
  unfold quant2 at hq
  rw [hn] at hq
  cases hb : b.neg with
  | false =>
    rw [hb] at hq
    simpa using hq
  | true =>
    rw [hb] at hq
    simpa using hq

theorem fmt2_congr (a b : PyFloat)
    (hq : quant2 a = quant2 b) (hn : a.neg = b.neg) :
    fmt2 a = fmt2 b := by
  unfold fmt2
  rw [hn, magQuant_eq_of_quant2_eq a b hq hn]

/-- Claim C6 (amended): coordinate pairs that round to the same value
AND agree on their sign bits derive the identical cache key; for such
pairs, a first `reverse` call on a cache miss with a succeeding
provider returns the payload, caches it and saves once, and the second
call returns the identical payload from the cache with no further
provider call and no further save (the state is unchanged).  The
sign-bit agreement is necessary: pairs straddling zero can round to
numerically equal values whose formatted keys still differ, "-0.00"
versus "0.00" (see the counterexample
c6_signed_zero_two_calls). -/
theorem c6_cache_idempotent (provider : (Bool × Int) × (Bool × Int) → Option Place)
    (st : GeoCacheState) (lat1 lon1 lat2 lon2 : PyFloat) (p : Place)
    (hq1 : quant2 lat1 = quant2 lat2) (hn1 : lat1.neg = lat2.neg)
    (hq2 : quant2 lon1 = quant2 lon2) (hn2 : lon1.neg = lon2.neg)
    (hmiss : assocLookup st.cache (quantKey lat1 lon1) = none)
    (hok : provider (roundedF lat1, roundedF lon1) = some p) :
    quantKey lat1 lon1 = quantKey lat2 lon2 ∧
    CachedGeolocator.reverse provider st lat1 lon1
      = (p, ⟨st.cache ++ [(quantKey lat1 lon1, p)], st.calls + 1, st.saves + 1⟩) ∧
    CachedGeolocator.reverse provider
        ⟨st.cache ++ [(quantKey lat1 lon1, p)], st.calls + 1, st.saves + 1⟩ lat2 lon2
      = (p, ⟨st.cache ++ [(quantKey lat1 lon1, p)], st.calls + 1, st.saves + 1⟩) := by
  have hkey : quantKey lat1 lon1 = quantKey lat2 lon2 := by
    unfold quantKey
    rw [fmt2_congr lat1 lat2 hq1 hn1, fmt2_congr lon1 lon2 hq2 hn2]
  refine ⟨hkey, ?_, ?_⟩
  · simp only [CachedGeolocator.reverse, hmiss, hok]
  · simp only [CachedGeolocator.reverse, ← hkey,
      assocLookup_append_self st.cache _ p hmiss]

def c6Provider : (Bool × Int) × (Bool × Int) → Option Place :=
  fun _ => some [("display_name", "Bucharest")]

/-- Claim C6, refuted by IEEE signed zero: the doubles -0.001 and
0.001 round to numerically equal values at 2 decimals
(`round(-0.001, 2) == round(0.001, 2)` is True in Python; `quant2` of
both is 0), yet the derived cache keys differ — "-0.00,26.10" versus
"0.00,26.10" — so after a first successful call, the second call
misses the cache and issues a SECOND provider call rather than the
claimed one external call in total. -/
theorem c6_signed_zero_two_calls :
    quant2 ⟨true, mkRat 1 1000⟩ = quant2 ⟨false, mkRat 1 1000⟩ ∧
    quantKey ⟨true, mkRat 1 1000⟩ ⟨false, mkRat 261 10⟩
      ≠ quantKey ⟨false, mkRat 1 1000⟩ ⟨false, mkRat 261 10⟩ ∧
    (CachedGeolocator.reverse c6Provider
        (CachedGeolocator.reverse c6Provider ⟨[], 0, 0⟩
          ⟨true, mkRat 1 1000⟩ ⟨false, mkRat 261 10⟩).2
        ⟨false, mkRat 1 1000⟩ ⟨false, mkRat 261 10⟩).2.calls = 2 ∧
    (2 : Nat) ≠ 1 :=
  ⟨by decide, by decide, by decide, by decide⟩

/-- Witness for `c6_cache_idempotent`: 44.431 and 44.429 both quantize
to 44.43, 26.10 and 26.104 both quantize to 26.10, all positive. -/
theorem c6_cache_idempotent_witness :
    quantKey ⟨false, mkRat 44431 1000⟩ ⟨false, mkRat 261 10⟩
      = quantKey ⟨false, mkRat 44429 1000⟩ ⟨false, mkRat 26104 1000⟩ :=
  (c6_cache_idempotent c6Provider ⟨[], 0, 0⟩
    ⟨false, mkRat 44431 1000⟩ ⟨false, mkRat 261 10⟩
    ⟨false, mkRat 44429 1000⟩ ⟨false, mkRat 26104 1000⟩
    [("display_name", "Bucharest")]
    (by decide) rfl (by decide) rfl rfl rfl).1

/-! ### Claim C10 -/

theorem scan_go_spec {α β : Type} (process : α → Option β) :
    ∀ (entries : List α) (counter : Nat) (db : List β), counter ≤ 1440 →
      scan_go process entries counter db =
        db ++ List.filterMap process (List.take (1440 - counter) entries) := by
  intro entries
  induction entries with
  | nil =>
    intro counter db hc
    simp [scan_go]
  | cons e rest ih =>
    intro counter db hc
    by_cases hbreak : counter + 1 > 1440
    · have hcc : counter = 1440 := by omega
      subst hcc
      simp [scan_go]
    · simp only [scan_go, if_neg hbreak]
      rw [ih (counter + 1) (db ++ (process e).toList) (by omega)]
      have htake : 1440 - counter = (1440 - (counter + 1)) + 1 := by omega
      rw [htake, List.take_succ_cons, List.filterMap_cons]
      cases hpe : process e <;> simp

/-- Claim C10: the scanning loop consults only the first 1440 directory
entries of the recursive walk — the result equals processing exactly
`entries.take 1440`, so entries enumerated after the first 1440
(directories included in the count) contribute nothing to the returned
record database. -/
theorem c10_scan_first_1440 {α β : Type} (process : α → Option β)
    (entries : List α) :
    scan_all_media_files process entries =
      List.filterMap process (List.take 1440 entries) := by
  unfold scan_all_media_files
  rw [scan_go_spec process entries 0 [] (by omega)]
  simp

end MediaOrg
